import Mathlib

/-!
Shallow embedding of the two scripts in this repository.

* `Appender` models `.planning/phases/phase-0-skeleton/write_body.py`: a
  straight-line script that reads two files as UTF-8 text, writes the
  concatenation of the target's text and the body's text back to the target
  path, and prints the target file's byte size after the write.
* `Capture` models `screenshot_site.py`: a straight-line Playwright script
  that captures eight screenshots of a local site at three viewport sizes.

File contents are modelled as lists of bytes (`Nat`); the appender's text
I/O is modelled as strict UTF-8 decoding/encoding of the entire contents,
matching `Path.read_text(encoding="utf-8")` / `Path.write_text(...,
encoding="utf-8")` in the source.
-/

namespace Appender

/-- Strict UTF-8 encoding of one Unicode scalar value, written with division
and remainder on `Nat`. This models the external codec used by the script's
`read_text` / `write_text` calls. -/
def utf8EncodeCharNat (n : Nat) : List Nat :=
  if n < 0x80 then [n]
  else if n < 0x800 then [0xc0 + n / 0x40, 0x80 + n % 0x40]
  else if n < 0x10000 then
    [0xe0 + n / 0x1000, 0x80 + n / 0x40 % 0x40, 0x80 + n % 0x40]
  else
    [0xf0 + n / 0x40000, 0x80 + n / 0x1000 % 0x40, 0x80 + n / 0x40 % 0x40,
      0x80 + n % 0x40]

/-- Strict UTF-8 decoding of one scalar value from the front of a byte list.
Malformed sequences, truncated sequences, overlong encodings and surrogate
code points are rejected, as in CPython's strict `utf-8` codec. -/
def utf8DecodeCharNat : List Nat → Option (Nat × List Nat)
  | [] => none
  | b :: bs =>
    if b < 0x80 then some (b, bs)
    else if b < 0xc0 then none
    else if b < 0xe0 then
      match bs with
      | b1 :: bs1 =>
        if 0x80 ≤ b1 ∧ b1 < 0xc0 then
          let n := (b - 0xc0) * 0x40 + (b1 - 0x80)
          if 0x80 ≤ n then some (n, bs1) else none
        else none
      | [] => none
    else if b < 0xf0 then
      match bs with
      | b1 :: b2 :: bs2 =>
        if (0x80 ≤ b1 ∧ b1 < 0xc0) ∧ (0x80 ≤ b2 ∧ b2 < 0xc0) then
          let n := (b - 0xe0) * 0x1000 + (b1 - 0x80) * 0x40 + (b2 - 0x80)
          if 0x800 ≤ n ∧ (n < 0xd800 ∨ 0xdfff < n) then some (n, bs2) else none
        else none
      | _ => none
    else if b < 0xf8 then
      match bs with
      | b1 :: b2 :: b3 :: bs3 =>
        if (0x80 ≤ b1 ∧ b1 < 0xc0) ∧ (0x80 ≤ b2 ∧ b2 < 0xc0) ∧
            (0x80 ≤ b3 ∧ b3 < 0xc0) then
          let n := (b - 0xf0) * 0x40000 + (b1 - 0x80) * 0x1000 +
            (b2 - 0x80) * 0x40 + (b3 - 0x80)
          if 0x10000 ≤ n ∧ n < 0x110000 then some (n, bs3) else none
        else none
      | _ => none
    else none

/-- Decode a whole byte list as UTF-8 text; the fuel argument (instantiated
with the list length) makes the recursion structural. -/
def decodeChars : Nat → List Nat → Option (List Char)
  | _, [] => some []
  | 0, _ :: _ => none
  | fuel + 1, b :: bs =>
    match utf8DecodeCharNat (b :: bs) with
    | none => none
    | some (n, rest) => (decodeChars fuel rest).map fun cs => Char.ofNat n :: cs

/-- UTF-8 encoding of a character list. -/
def encodeChars (cs : List Char) : List Nat :=
  cs.flatMap fun c => utf8EncodeCharNat c.toNat

/-- UTF-8 encoding of a string, as the byte contents written by
`write_text(..., encoding="utf-8")`. -/
def encode (s : String) : List Nat := encodeChars s.data

/-- UTF-8 decoding of a whole file's bytes, as performed by
`read_text(encoding="utf-8")`; `none` models a `UnicodeDecodeError`. -/
def utf8Decode (bs : List Nat) : Option String :=
  (decodeChars bs.length bs).map fun cs => String.mk cs

/-- Filesystem paths. -/
abbrev Path := String

/-- A filesystem: each path either holds a file with byte contents, or no
file (`none`). -/
abbrev FS := Path → Option (List Nat)

/-- The hard-coded target path of `write_body.py`. -/
def target : Path :=
  "C:/Users/user/Desktop/renovation-agent-monorepo/.planning/phases/phase-0-skeleton/phase-0-VERIFICATION.md"

/-- The hard-coded body path of `write_body.py`. -/
def body_path : Path :=
  "C:/Users/user/Desktop/renovation-agent-monorepo/.planning/phases/phase-0-skeleton/body.md"

/-- Model of `pathlib.Path.read_text(encoding="utf-8")`: fails (`none`) when
the file does not exist or its bytes are not valid UTF-8. -/
def read_text (fs : FS) (p : Path) : Option String := (fs p).bind utf8Decode

/-- Model of `pathlib.Path.write_text(s, encoding="utf-8")`: replaces the
contents at `p` with the UTF-8 encoding of `s`. -/
def write_text (fs : FS) (p : Path) (s : String) : FS :=
  fun q => if q = p then some (encode s) else fs q

/-- Model of `Path.stat().st_size`: the byte length of the file at `p`. -/
def st_size (fs : FS) (p : Path) : Option Nat := (fs p).map List.length

/-- The whole `write_body.py` script, as a function from the initial
filesystem to the printed size (`none` when an uncaught exception terminates
the script before the print) and the final filesystem. -/
def write_body (fs : FS) : Option Nat × FS :=
  match read_text fs target with
  | none => (none, fs)
  | some current =>
    match read_text fs body_path with
    | none => (none, fs)
    | some body =>
      let fs2 := write_text fs target (current ++ body)
      (st_size fs2 target, fs2)

/-- A two-file filesystem holding the given contents at the script's two
hard-coded paths. -/
def fsOf (t b : Option (List Nat)) : FS :=
  fun p => if p = target then t else if p = body_path then b else none

end Appender

namespace Appender

theorem utf8EncodeCharNat_ne_nil (n : Nat) : utf8EncodeCharNat n ≠ [] := by
  unfold utf8EncodeCharNat
  split_ifs <;> simp

theorem utf8DecodeCharNat_encodeChar (n : Nat) (hv : Nat.isValidChar n)
    (rest : List Nat) :
    utf8DecodeCharNat (utf8EncodeCharNat n ++ rest) = some (n, rest) := by
  have hv' : n < 0xd800 ∨ 0xdfff < n ∧ n < 0x110000 := hv
  by_cases h1 : n < 0x80
  · simp only [utf8EncodeCharNat, if_pos h1, List.cons_append, List.nil_append,
      utf8DecodeCharNat, if_pos h1]
  · by_cases h2 : n < 0x800
    · simp only [utf8EncodeCharNat, if_neg h1, if_pos h2, List.cons_append,
        List.nil_append, utf8DecodeCharNat]
      rw [if_neg (by omega), if_neg (by omega), if_pos (by omega),
        if_pos (by omega), if_pos (by omega)]
      simp only [Option.some.injEq, Prod.mk.injEq]
      exact ⟨by omega, trivial⟩
    · by_cases h3 : n < 0x10000
      · simp only [utf8EncodeCharNat, if_neg h1, if_neg h2, if_pos h3,
          List.cons_append, List.nil_append, utf8DecodeCharNat]
        rw [if_neg (by omega), if_neg (by omega), if_neg (by omega),
          if_pos (by omega), if_pos (by omega), if_pos (by omega)]
        simp only [Option.some.injEq, Prod.mk.injEq]
        exact ⟨by omega, trivial⟩
      · simp only [utf8EncodeCharNat, if_neg h1, if_neg h2, if_neg h3,
          List.cons_append, List.nil_append, utf8DecodeCharNat]
        rw [if_neg (by omega), if_neg (by omega), if_neg (by omega),
          if_neg (by omega), if_pos (by omega), if_pos (by omega),
          if_pos (by omega)]
        simp only [Option.some.injEq, Prod.mk.injEq]
        exact ⟨by omega, trivial⟩

theorem decodeChars_encodeChars (cs : List Char) :
    ∀ fuel, (encodeChars cs).length ≤ fuel →
      decodeChars fuel (encodeChars cs) = some cs := by
  induction cs with
  | nil => intro fuel _; cases fuel <;> rfl
  | cons c cs ih =>
    intro fuel hfuel
    have hv : Nat.isValidChar c.toNat := c.valid
    have hne := utf8EncodeCharNat_ne_nil c.toNat
    obtain ⟨b, bs, hb⟩ : ∃ b bs, utf8EncodeCharNat c.toNat = b :: bs := by
      cases h : utf8EncodeCharNat c.toNat with
      | nil => exact absurd h hne
      | cons x xs => exact ⟨x, xs, rfl⟩
    have henc : encodeChars (c :: cs) = b :: (bs ++ encodeChars cs) := by
      simp [encodeChars, hb]
    rw [henc] at hfuel ⊢
    cases fuel with
    | zero => simp at hfuel
    | succ f =>
      have hdec : utf8DecodeCharNat (b :: (bs ++ encodeChars cs)) =
          some (c.toNat, encodeChars cs) := by
        have h := utf8DecodeCharNat_encodeChar c.toNat hv (encodeChars cs)
        rw [hb, List.cons_append] at h
        exact h
      simp only [decodeChars, hdec]
      rw [ih f (by simp at hfuel; omega)]
      simp [Char.ofNat_toNat]

theorem utf8Decode_encode (s : String) : utf8Decode (encode s) = some s := by
  unfold utf8Decode encode
  rw [decodeChars_encodeChars s.data _ le_rfl]
  rfl

theorem encode_append (s t : String) : encode (s ++ t) = encode s ++ encode t := by
  simp [encode, encodeChars, String.data_append]

theorem read_text_write_text (fs : FS) (p : Path) (s : String) :
    read_text (write_text fs p s) p = some s := by
  simp [read_text, write_text, utf8Decode_encode]

theorem target_ne_body_path : target ≠ body_path := by decide

theorem sanity_encode_header : encode "Header\n" = [72, 101, 97, 100, 101, 114, 10] := by
  decide

theorem sanity_decode_header :
    utf8Decode [72, 101, 97, 100, 101, 114, 10] = some "Header\n" := by
  decide

theorem sanity_decode_bad : utf8Decode [255] = none := by
  decide

theorem read_text_write_text_other (fs : FS) (p q : Path) (s : String)
    (h : q ≠ p) : read_text (write_text fs p s) q = read_text fs q := by
  simp [read_text, write_text, h]

theorem write_body_eq (fs : FS) (A B : String)
    (hA : read_text fs target = some A) (hB : read_text fs body_path = some B) :
    write_body fs =
      (some (encode (A ++ B)).length, write_text fs target (A ++ B)) := by
  simp only [write_body, hA, hB]
  simp [st_size, write_text]

theorem append_twice_ne (A B : String) (hne : B ≠ "") :
    A ++ B ++ B ≠ A ++ B := by
  intro h
  apply hne
  have hd : A.data ++ B.data ++ B.data = A.data ++ B.data := by
    have h2 := congrArg String.data h
    simpa [String.data_append] using h2
  rw [List.append_assoc] at hd
  have h2 : B.data ++ B.data = B.data := List.append_cancel_left hd
  have h3 : B.data.length + B.data.length = B.data.length := by
    simpa using congrArg List.length h2
  have h4 : B.data = [] := List.eq_nil_of_length_eq_zero (by omega)
  exact String.ext h4

/-- Filesystem for the spec's scenario: the target holds the text
`"Header\n"` and the body holds `"Footer\n"`. -/
def fsHF : FS := fsOf (some (encode "Header\n")) (some (encode "Footer\n"))

/-- Filesystem where both files are empty. -/
def fsEE : FS := fsOf (some []) (some [])

/-- Filesystem with no files at all. -/
def fsEmpty : FS := fun _ => none

/-- Filesystem where only the target file exists. -/
def fsHonly : FS := fsOf (some (encode "Header\n")) none

/-- Filesystem where the target file holds the single byte 0xFF, which is not
valid UTF-8. -/
def fsBad : FS := fsOf (some [255]) none

/-- C1: running the appender on a target containing text A and a body
containing text B leaves the target containing A ++ B, and the printed size
(the target's byte size after the write) equals the UTF-8 byte length of A
plus the UTF-8 byte length of B. -/
theorem appender_appends_and_reports_size (fs : FS) (A B : String)
    (hA : read_text fs target = some A) (hB : read_text fs body_path = some B) :
    (write_body fs).1 = some ((encode A).length + (encode B).length) ∧
    read_text (write_body fs).2 target = some (A ++ B) := by
  rw [write_body_eq fs A B hA hB]
  constructor
  · simp [encode_append]
  · exact read_text_write_text fs target (A ++ B)

/-- C1 witness: on the spec's scenario (target `"Header\n"`, body
`"Footer\n"`) the appender reports size 14 and leaves the target containing
`"Header\nFooter\n"`. -/
theorem appender_appends_and_reports_size_witness :
    (write_body fsHF).1 = some 14 ∧
    read_text (write_body fsHF).2 target = some "Header\nFooter\n" := by
  have h := appender_appends_and_reports_size fsHF "Header\n" "Footer\n"
    (by decide) (by decide)
  exact ⟨h.1.trans (by decide), h.2.trans (by decide)⟩

/-- C6 counterexample: with A = "" and B = "", running the appender twice
leaves the target containing exactly A ++ B (the empty string), so the
claim's universally quantified "not A + B" clause fails at this input. -/
theorem appender_twice_counterexample :
    read_text (write_body (write_body fsEE).2).2 target = some ("" ++ "") := by
  decide

/-- C6 amended: for every pair of text contents A and B with B nonempty,
running the appender twice in succession leaves the target containing
A ++ B ++ B, which differs from A ++ B. -/
theorem appender_twice_appends (fs : FS) (A B : String)
    (hA : read_text fs target = some A) (hB : read_text fs body_path = some B)
    (hne : B ≠ "") :
    read_text (write_body (write_body fs).2).2 target = some (A ++ B ++ B) ∧
    read_text (write_body (write_body fs).2).2 target ≠ some (A ++ B) := by
  have h1 := write_body_eq fs A B hA hB
  have hA2 : read_text (write_body fs).2 target = some (A ++ B) := by
    rw [h1]
    exact read_text_write_text fs target (A ++ B)
  have hB2 : read_text (write_body fs).2 body_path = some B := by
    rw [h1]
    show read_text (write_text fs target (A ++ B)) body_path = some B
    rw [read_text_write_text_other fs target body_path (A ++ B) (by decide)]
    exact hB
  have h2 := write_body_eq (write_body fs).2 (A ++ B) B hA2 hB2
  have hfinal : read_text (write_body (write_body fs).2).2 target =
      some (A ++ B ++ B) := by
    rw [h2]
    exact read_text_write_text (write_body fs).2 target (A ++ B ++ B)
  refine ⟨hfinal, ?_⟩
  rw [hfinal]
  intro hcontra
  exact append_twice_ne A B hne (Option.some.inj hcontra)

/-- C6 witness: on target `"Header\n"` and body `"Footer\n"`, two runs leave
`"Header\nFooter\nFooter\n"` in the target, not `"Header\nFooter\n"`. -/
theorem appender_twice_appends_witness :
    read_text (write_body (write_body fsHF).2).2 target =
      some "Header\nFooter\nFooter\n" ∧
    read_text (write_body (write_body fsHF).2).2 target ≠
      some "Header\nFooter\n" := by
  have h := appender_twice_appends fsHF "Header\n" "Footer\n"
    (by decide) (by decide) (by decide)
  constructor
  · exact h.1.trans (by decide)
  · intro hc
    exact h.2 (hc.trans (by decide))

/-- C7: when the target path holds no file, the appender fails before any
write: the script's result is failure (no printed size) and the filesystem is
returned unchanged, so no file is created or modified. -/
theorem appender_missing_target_no_write (fs : FS) (h : fs target = none) :
    write_body fs = (none, fs) := by
  have hT : read_text fs target = none := by simp [read_text, h]
  simp only [write_body, hT]

/-- C7 witness: on the empty filesystem the appender fails and changes
nothing. -/
theorem appender_missing_target_no_write_witness :
    write_body fsEmpty = (none, fsEmpty) :=
  appender_missing_target_no_write fsEmpty rfl

/-- C8: the appender never modifies or deletes any file other than the
target; in particular the body file's content is never mutated. -/
theorem appender_preserves_non_target (fs : FS) (p : Path) (hp : p ≠ target) :
    (write_body fs).2 p = fs p := by
  unfold write_body
  cases hT : read_text fs target with
  | none => rfl
  | some current =>
    cases hB : read_text fs body_path with
    | none => rfl
    | some body =>
      simp [write_text, hp]

/-- C8 witness: on the `"Header\n"`/`"Footer\n"` filesystem the body file is
unchanged by a run of the appender. -/
theorem appender_preserves_non_target_witness :
    (write_body fsHF).2 body_path = fsHF body_path :=
  appender_preserves_non_target fsHF body_path (by decide)

/-- C9: when the target file exists and is readable as text but the body
path cannot be read, the appender fails with the filesystem unchanged,
because both reads complete before the single write begins. -/
theorem appender_missing_body_no_write (fs : FS) (A : String)
    (hA : read_text fs target = some A)
    (hB : read_text fs body_path = none) :
    write_body fs = (none, fs) := by
  simp only [write_body, hA, hB]

/-- C9 witness: with only the target file present, the appender fails and
changes nothing. -/
theorem appender_missing_body_no_write_witness :
    write_body fsHonly = (none, fsHonly) :=
  appender_missing_body_no_write fsHonly "Header\n" (by decide) (by decide)

/-- C10: if either input file's bytes are not decodable as UTF-8, the run
fails during the read phase, before any write occurs, leaving the filesystem
unchanged; non-UTF-8 raw byte contents are not accepted. -/
theorem appender_rejects_invalid_utf8 (fs : FS) (p : Path) (bs : List Nat)
    (hp : p = target ∨ p = body_path) (hfile : fs p = some bs)
    (hbad : utf8Decode bs = none) :
    write_body fs = (none, fs) := by
  cases hp with
  | inl h =>
    subst h
    have hT : read_text fs target = none := by simp [read_text, hfile, hbad]
    simp only [write_body, hT]
  | inr h =>
    subst h
    have hB : read_text fs body_path = none := by simp [read_text, hfile, hbad]
    cases hT : read_text fs target with
    | none => simp only [write_body, hT]
    | some current => simp only [write_body, hT, hB]

/-- C10 witness: a target file holding the single byte 0xFF makes the
appender fail with the filesystem unchanged. -/
theorem appender_rejects_invalid_utf8_witness :
    write_body fsBad = (none, fsBad) :=
  appender_rejects_invalid_utf8 fsBad target [255] (Or.inl rfl)
    (by decide) (by decide)

end Appender

namespace Capture

/-- One external call made by `screenshot_site.py`, tagged with the page it
acts on (0 = desktop `page`, 1 = `mobile`, 2 = `tablet`). -/
inductive Action where
  | launch (headless : Bool)
  | newPage (page width height : Nat)
  | goto (page : Nat) (url : String)
  | waitForLoadState (page : Nat) (state : String)
  | emulateMedia (page : Nat) (colorScheme : String)
  | waitForTimeout (page : Nat) (ms : Nat)
  | screenshot (page : Nat) (path : String) (fullPage : Bool)
  | print (line : String)
  | closePage (page : Nat)
  | closeBrowser
  deriving DecidableEq

/-- The complete straight-line script of `screenshot_site.py`, one entry per
external call, in source order. -/
def script : List Action := [
  .launch true,
  .newPage 0 1440 900,
  .goto 0 "http://localhost:3001",
  .waitForLoadState 0 "networkidle",
  .screenshot 0 "screenshots/01_landing_desktop.png" true,
  .print "Captured: Landing page (desktop)",
  .emulateMedia 0 "dark",
  .waitForTimeout 0 500,
  .screenshot 0 "screenshots/02_landing_desktop_dark.png" true,
  .print "Captured: Landing page dark mode (desktop)",
  .emulateMedia 0 "light",
  .goto 0 "http://localhost:3001/app",
  .waitForLoadState 0 "networkidle",
  .waitForTimeout 0 1000,
  .screenshot 0 "screenshots/03_app_page_desktop.png" true,
  .print "Captured: App page (desktop)",
  .goto 0 "http://localhost:3001/test-chat",
  .waitForLoadState 0 "networkidle",
  .waitForTimeout 0 1000,
  .screenshot 0 "screenshots/04_test_chat_desktop.png" true,
  .print "Captured: Test chat page (desktop)",
  .closePage 0,
  .newPage 1 390 844,
  .goto 1 "http://localhost:3001",
  .waitForLoadState 1 "networkidle",
  .screenshot 1 "screenshots/05_landing_mobile.png" true,
  .print "Captured: Landing page (mobile)",
  .goto 1 "http://localhost:3001/app",
  .waitForLoadState 1 "networkidle",
  .waitForTimeout 1 1000,
  .screenshot 1 "screenshots/06_app_page_mobile.png" true,
  .print "Captured: App page (mobile)",
  .goto 1 "http://localhost:3001/test-chat",
  .waitForLoadState 1 "networkidle",
  .waitForTimeout 1 1000,
  .screenshot 1 "screenshots/07_test_chat_mobile.png" true,
  .print "Captured: Test chat page (mobile)",
  .closePage 1,
  .newPage 2 768 1024,
  .goto 2 "http://localhost:3001",
  .waitForLoadState 2 "networkidle",
  .screenshot 2 "screenshots/08_landing_tablet.png" true,
  .print "Captured: Landing page (tablet)",
  .closePage 2,
  .closeBrowser,
  .print "\nAll screenshots captured successfully!"]

/-- The screenshot files an action writes (fire-and-forget). -/
def filesOf : Action → List String
  | .screenshot _ p _ => [p]
  | _ => []

/-- The standard-output lines an action prints. -/
def linesOf : Action → List String
  | .print s => [s]
  | _ => []

/-- Observable outcome of a run: screenshot files written in order, stdout
lines in order, the successfully executed call trace, and the process exit
code (0 for success, 1 for an uncaught exception). -/
structure Outcome where
  files : List String
  stdout : List String
  executed : List Action
  exitCode : Nat

/-- Sequential execution of the remaining script from absolute step index
`k`: the oracle `ok` tells which step indices succeed; the first failing
step raises an uncaught exception, which aborts every remaining step and
exits non-zero. -/
def runFrom (ok : Nat → Bool) : List Action → Nat → Outcome
  | [], _ => ⟨[], [], [], 0⟩
  | a :: rest, k =>
    if ok k then
      let o := runFrom ok rest (k + 1)
      ⟨filesOf a ++ o.files, linesOf a ++ o.stdout, a :: o.executed, o.exitCode⟩
    else ⟨[], [], [], 1⟩

/-- A whole run of `screenshot_site.py` under the failure oracle `ok`. -/
def run (ok : Nat → Bool) : Outcome := runFrom ok script 0

/-- Oracle for a fully successful run: every external call succeeds. -/
def allOk : Nat → Bool := fun _ => true

/-- Whether an action is a navigation (`page.goto`). -/
def isGoto : Action → Bool
  | .goto .. => true
  | _ => false

/-- Oracle for an unreachable server: every navigation fails and every other
call succeeds, so the run raises at the first `goto`. -/
def serverDownOk : Nat → Bool := fun k =>
  match script[k]? with
  | some a => !isGoto a
  | none => true

/-- Oracle that fails exactly at step index 2 (the first navigation). -/
def failAt2 : Nat → Bool := fun k => decide (k ≠ 2)

/-- The eight progress lines, in capture order. -/
def progressLines : List String := [
  "Captured: Landing page (desktop)",
  "Captured: Landing page dark mode (desktop)",
  "Captured: App page (desktop)",
  "Captured: Test chat page (desktop)",
  "Captured: Landing page (mobile)",
  "Captured: App page (mobile)",
  "Captured: Test chat page (mobile)",
  "Captured: Landing page (tablet)"]

theorem runFrom_fail (ok : Nat → Bool) (l : List Action) :
    ∀ k i, i < l.length → ok (k + i) = false →
      (∀ j, j < i → ok (k + j) = true) →
      runFrom ok l k =
        ⟨(l.take i).flatMap filesOf, (l.take i).flatMap linesOf, l.take i, 1⟩ := by
  induction l with
  | nil => intro k i hi _ _; exact absurd hi (by simp)
  | cons a rest ih =>
    intro k i hi hfail hok
    cases i with
    | zero =>
      have hk : ok k = false := by simpa using hfail
      simp [runFrom, hk]
    | succ i' =>
      have hk : ok k = true := by simpa using hok 0 (Nat.succ_pos i')
      have hrest := ih (k + 1) i' (by simpa using hi)
        (by have := hfail; rwa [show k + (i' + 1) = k + 1 + i' by omega] at this)
        (by
          intro j hj
          have := hok (j + 1) (by omega)
          rwa [show k + (j + 1) = k + 1 + j by omega] at this)
      simp [runFrom, hk, hrest]

/-- C2: a run in which every step succeeds writes exactly the eight
screenshot files, with exactly these literal names, in exactly this order
(the semantics executes the script's steps one at a time in source order, so
there is no parallelism), and the process exits successfully. -/
theorem capture_success_files :
    (run allOk).files = [
      "screenshots/01_landing_desktop.png",
      "screenshots/02_landing_desktop_dark.png",
      "screenshots/03_app_page_desktop.png",
      "screenshots/04_test_chat_desktop.png",
      "screenshots/05_landing_mobile.png",
      "screenshots/06_app_page_mobile.png",
      "screenshots/07_test_chat_mobile.png",
      "screenshots/08_landing_tablet.png"] ∧
    (run allOk).exitCode = 0 := by
  decide

/-- C3: when the server is unreachable every navigation fails, so the run
raises at the first `goto`: zero screenshot files are produced, nothing is
printed (in particular no "Captured: " line), and the process exits with a
non-zero status. -/
theorem capture_server_down_no_output :
    (run serverDownOk).files = [] ∧ (run serverDownOk).stdout = [] ∧
    (run serverDownOk).exitCode ≠ 0 := by
  decide

/-- C4: in any run whose first failing step is index i, at or before the
`browser.close()` call (index 44), every remaining step is aborted — the
executed trace is exactly the first i steps — the process exits non-zero,
and no browser cleanup runs: `closeBrowser` is never executed. -/
theorem capture_failure_aborts_without_cleanup (ok : Nat → Bool) (i : Nat)
    (hi : i ≤ 44) (hfail : ok i = false) (hok : ∀ j, j < i → ok j = true) :
    (run ok).executed = script.take i ∧ (run ok).exitCode = 1 ∧
    Action.closeBrowser ∉ (run ok).executed := by
  have hlen : i < script.length := by
    have h46 : script.length = 46 := by decide
    omega
  have h := runFrom_fail ok script 0 i hlen (by simpa using hfail)
    (by intro j hj; simpa using hok j hj)
  have hrun : run ok =
      ⟨(script.take i).flatMap filesOf, (script.take i).flatMap linesOf,
        script.take i, 1⟩ := h
  rw [hrun]
  refine ⟨rfl, rfl, ?_⟩
  have hmem44 : Action.closeBrowser ∉ script.take 44 := by decide
  intro hmem
  apply hmem44
  have heq : (script.take 44).take i = script.take i := by
    rw [List.take_take, Nat.min_eq_left hi]
  rw [← heq] at hmem
  exact List.take_subset _ _ hmem

/-- C4 witness: failing at step index 2 (the first navigation) leaves only
the first two steps executed and the browser unclosed. -/
theorem capture_failure_aborts_without_cleanup_witness :
    (run failAt2).executed = script.take 2 ∧ (run failAt2).exitCode = 1 ∧
    Action.closeBrowser ∉ (run failAt2).executed :=
  capture_failure_aborts_without_cleanup failAt2 2 (by decide) (by decide)
    (by decide)

/-- C5 counterexample: a successful run's standard output is not just the
eight progress lines — a ninth, final summary line is printed after the
browser closes — so "no console output beyond these progress messages"
fails on the code. -/
theorem capture_stdout_counterexample :
    (run allOk).stdout ≠ progressLines ∧
    (run allOk).stdout =
      progressLines ++ ["\nAll screenshots captured successfully!"] := by
  decide

/-- C5 amended: a successful run prints exactly nine lines on standard
output: the eight progress lines, one immediately following each successful
capture in capture order (the executed trace is exactly the script, where
each print directly follows its screenshot step), followed by exactly one
final summary line; there is no other output and no return value. -/
theorem capture_stdout_progress_plus_summary :
    (run allOk).stdout =
      progressLines ++ ["\nAll screenshots captured successfully!"] ∧
    (run allOk).executed = script := by
  decide

end Capture
